import Mathlib

/-!
Shallow embedding of the newsletter subscriber subsystem of the
elisabeth-constantin backend, and proofs about the claims of its
specification.

The embedding translates, function by function, the Python sources:
  * src/app/services/email/jwt_utils.py          (Token Service)
  * src/app/repositories/subscriber_repo.py      (Subscriber Registry)
  * src/app/routers/newsletter.py                (subscribe / confirm / unsubscribe endpoints)
  * src/app/routers/mailjet_webhooks.py          (Webhook Ingestion)
  * src/app/services/email/mailerlite_client.py  (Mailing Provider Adapter)
  * src/app/services/email/notifications.py      (Notification Dispatcher)
  * src/scripts/sync_mailerlite_status.py        (Reconciliation Job)

Modelling conventions:
  * timestamps are natural numbers (seconds);
  * the Mongo collection is modelled as a list of subscriber documents
    (the `self.collection is None` degraded mode of the repository is not
    modelled: every claim quantifies over store states with a store present);
  * Python `None`-able fields are `Option`s; a Mongo `$set` of a field is a
    record update;
  * randomness (`secrets.token_hex`) and the current time are explicit
    parameters;
  * the JWT signature is modelled by recording the secret a token was signed
    with: `jwt.decode` with secret `s` succeeds exactly on tokens signed
    with `s` and not yet expired;
  * an unhandled Python exception is the `.exn name` outcome of an endpoint;
    a `raise HTTPException(status, detail)` is the `.httpError status detail`
    outcome; a normal return is `.ok`.
-/

namespace Newsletter

/-- ASCII model of Python `str.lower` on a single character (the emails the
system handles are ASCII; `String.toLower` itself does not reduce in the
kernel, so the map is spelled out). -/
def lowerChar (c : Char) : Char :=
  if 65 ≤ c.toNat ∧ c.toNat ≤ 90 then Char.ofNat (c.toNat + 32) else c

/-- Python `s.lower()`. -/
def pyLower (s : String) : String := ⟨s.data.map lowerChar⟩

/-- Python whitespace for `str.strip`. -/
def isPySpace (c : Char) : Bool :=
  c == ' ' || c == '\t' || c == '\n' || c == '\r' || c == '\x0b' || c == '\x0c'

/-- Python `s.strip()`. -/
def pyStrip (s : String) : String :=
  ⟨((s.data.dropWhile isPySpace).reverse.dropWhile isPySpace).reverse⟩

/-- `SubscriberStatus` from src/app/models/subscriber.py. -/
inductive SubscriberStatus
  | pending
  | confirmed
  | unsubscribed
  | bounced
  | complained
  deriving DecidableEq, Repr

/-- The string value of a status (`SubscriberStatus.X.value` in Python). -/
def SubscriberStatus.value : SubscriberStatus → String
  | .pending => "pending"
  | .confirmed => "confirmed"
  | .unsubscribed => "unsubscribed"
  | .bounced => "bounced"
  | .complained => "complained"

/-- Payload of a JWT issued by src/app/services/email/jwt_utils.py:
email, a `type` claim, expiry and issued-at timestamps. -/
structure TokenPayload where
  email : String
  typ : String
  exp : Nat
  iat : Nat
  deriving DecidableEq, Repr

/-- A signed token: the payload together with the secret it was signed
with (standing in for the HS256 signature). -/
structure Token where
  payload : TokenPayload
  signedWith : String
  deriving DecidableEq, Repr

/-- `JWT_SECRET` of jwt_utils.py (default value of the env var). -/
def JWT_SECRET : String := "CHANGE_ME_IN_PRODUCTION"

/-- `CONFIRMATION_TOKEN_EXPIRY_HOURS = 48`, in seconds. -/
def CONFIRMATION_TOKEN_EXPIRY : Nat := 48 * 3600

/-- `UNSUBSCRIBE_TOKEN_EXPIRY_DAYS = 365`, in seconds. -/
def UNSUBSCRIBE_TOKEN_EXPIRY : Nat := 365 * 24 * 3600

/-- `generate_confirmation_token` from jwt_utils.py. -/
def generate_confirmation_token (email : String) (now : Nat) : Token :=
  { payload := { email := pyLower email, typ := "confirmation",
                 exp := now + CONFIRMATION_TOKEN_EXPIRY, iat := now },
    signedWith := JWT_SECRET }

/-- `generate_unsubscribe_token` from jwt_utils.py. -/
def generate_unsubscribe_token (email : String) (now : Nat) : Token :=
  { payload := { email := pyLower email, typ := "unsubscribe",
                 exp := now + UNSUBSCRIBE_TOKEN_EXPIRY, iat := now },
    signedWith := JWT_SECRET }

/-- `jwt.decode(token, JWT_SECRET, algorithms=[JWT_ALGORITHM])`:
fails on a bad signature (`InvalidTokenError`) or an expired `exp` claim
(`ExpiredSignatureError`); both are caught by `verify_token` and turned
into `None`, so the decode here returns an `Option`. -/
def jwtDecode (secret : String) (now : Nat) (t : Token) : Option TokenPayload :=
  if t.signedWith ≠ secret then none
  else if t.payload.exp ≤ now then none
  else some t.payload

/-- `verify_token(token, expected_type)` from jwt_utils.py: decode, then
check the `type` claim; any failure yields `None`. -/
def verify_token (t : Token) (expected_type : String) (now : Nat) : Option TokenPayload :=
  match jwtDecode JWT_SECRET now t with
  | none => none
  | some payload => if payload.typ ≠ expected_type then none else some payload

/-- `verify_confirmation_token` from jwt_utils.py. -/
def verify_confirmation_token (t : Token) (now : Nat) : Option String :=
  match verify_token t "confirmation" now with
  | some payload => some payload.email
  | none => none

/-- `verify_unsubscribe_token` from jwt_utils.py. -/
def verify_unsubscribe_token (t : Token) (now : Nat) : Option String :=
  match verify_token t "unsubscribe" now with
  | some payload => some payload.email
  | none => none

/-- A subscriber document, per the fields written by newsletter.py /
subscriber_repo.py (cf. the pydantic model in src/app/models/subscriber.py). -/
structure Subscriber where
  email : String
  status : SubscriberStatus
  consent_accepted : Bool := false
  consent_ip : Option String := none
  consent_user_agent : Option String := none
  source : String := "front_form"
  confirmation_token : Option Token := none
  unsubscribe_token : Option Token := none
  created_at : Option Nat := none
  confirmed_at : Option Nat := none
  unsubscribed_at : Option Nat := none
  unsubscribe_reason : Option String := none
  promo_code : Option String := none
  promo_used : Bool := false
  promo_used_at : Option Nat := none
  emails_sent : Nat := 0
  emails_opened : Nat := 0
  emails_clicked : Nat := 0
  last_email_sent_at : Option Nat := none
  deriving DecidableEq, Repr

/-- The subscribers collection: a list of documents in insertion order. -/
abbrev Store := List Subscriber

namespace SubscriberRepository

/-- `get_by_email`: `find_one({"email": email.lower()})`. -/
def get_by_email (store : Store) (email : String) : Option Subscriber :=
  List.find? (fun r => r.email = pyLower email) store

/-- `update_one({"email": email.lower()}, {"$set": ...})` applied to the
first matching document; the returned `Bool` is `modified_count > 0`
(false when no document matches or the `$set` leaves it unchanged). -/
def updateFirst (store : Store) (email : String) (f : Subscriber → Subscriber) :
    Store × Bool :=
  match store with
  | [] => ([], false)
  | r :: rs =>
    if r.email = email then ((f r) :: rs, f r ≠ r)
    else
      let tail := updateFirst rs email f
      (r :: tail.1, tail.2)

/-- `SubscriberRepository.update(email, update_data)` with `update_data`
given as a field transformer. -/
def update (store : Store) (email : String) (f : Subscriber → Subscriber) :
    Store × Bool :=
  updateFirst store (pyLower email) f

/-- `SubscriberRepository.create(subscriber_data)`: normalise the email,
refuse if it already exists, else insert with `created_at`.  Returns the
new id (modelled as the email) or `none`. -/
def create (store : Store) (sub : Subscriber) (now : Nat) : Store × Option String :=
  let sub := { sub with email := pyLower sub.email }
  match get_by_email store sub.email with
  | some _ => (store, none)
  | none =>
    let sub := { sub with created_at := some now }
    (store ++ [sub], some sub.email)

/-- `SubscriberRepository.confirm(email, promo_code)`: `$set` status to
confirmed, `confirmed_at` to now, `promo_code` to the given code. -/
def confirm (store : Store) (email : String) (promo_code : String) (now : Nat) :
    Store × Bool :=
  update store email (fun r =>
    { r with status := .confirmed, confirmed_at := some now,
             promo_code := some promo_code })

/-- `SubscriberRepository.unsubscribe(email, reason)`: `$set` status to
unsubscribed and `unsubscribed_at`; `unsubscribe_reason` only when a reason
is given (Python truthiness: `if reason:`). -/
def unsubscribe (store : Store) (email : String) (reason : Option String) (now : Nat) :
    Store × Bool :=
  update store email (fun r =>
    let r := { r with status := .unsubscribed, unsubscribed_at := some now }
    match reason with
    | some s => if s ≠ "" then { r with unsubscribe_reason := some s } else r
    | none => r)

/-- `SubscriberRepository.mark_bounced(email)`. -/
def mark_bounced (store : Store) (email : String) : Store × Bool :=
  update store email (fun r => { r with status := .bounced })

/-- `SubscriberRepository.mark_complained(email)`. -/
def mark_complained (store : Store) (email : String) : Store × Bool :=
  update store email (fun r => { r with status := .complained })

/-- `SubscriberRepository.increment_email_stats(email, sent, opened, clicked)`:
`$inc` the selected counters (and `$set last_email_sent_at` when `sent`);
with no flag set, no update is issued and `False` is returned. -/
def increment_email_stats (store : Store) (email : String)
    (sent opened clicked : Bool) (now : Nat) : Store × Bool :=
  if sent || opened || clicked then
    update store email (fun r =>
      let r := if sent then
        { r with emails_sent := r.emails_sent + 1, last_email_sent_at := some now }
        else r
      let r := if opened then { r with emails_opened := r.emails_opened + 1 } else r
      if clicked then { r with emails_clicked := r.emails_clicked + 1 } else r)
  else (store, false)

/-- `SubscriberRepository.get_active_subscribers()`:
`find({"status": SubscriberStatus.CONFIRMED.value})`. -/
def get_active_subscribers (store : Store) : List Subscriber :=
  List.filter (fun r => r.status = .confirmed) store

/-- `SubscriberRepository.delete(email)` (RGPD erasure). -/
def delete (store : Store) (email : String) : Store × Bool :=
  let remaining := List.filter (fun r => r.email ≠ pyLower email) store
  (remaining, remaining.length ≠ store.length)

end SubscriberRepository

end Newsletter

namespace Newsletter

/-- A JSON value, for provider request/response bodies
(src/app/services/email/mailerlite_client.py exchanges `dict`s). -/
inductive Jx
  | jnull
  | jbool (b : Bool)
  | jnum (n : Int)
  | jstr (s : String)
  | jarr (elems : List Jx)
  | jobj (fields : List (String × Jx))

/-- Python truthiness of a JSON value (`if not data: ...`). -/
def Jx.truthy : Jx → Bool
  | .jnull => false
  | .jbool b => b
  | .jnum n => n != 0
  | .jstr s => s ≠ ""
  | .jarr xs => ¬xs.isEmpty
  | .jobj fs => ¬fs.isEmpty

/-- Python `d.get(key)` on a dict (`None` when the key is absent or the
value is not a dict). -/
def Jx.get (j : Jx) (key : String) : Option Jx :=
  match j with
  | .jobj fs => (List.find? (fun kv => kv.1 = key) fs).map Prod.snd
  | _ => none

/-- How a value is interpolated into an f-string url (`f"/subscribers/{id}"`). -/
def Jx.asPyStr : Jx → String
  | .jnull => "None"
  | .jbool b => if b then "True" else "False"
  | .jnum n => toString n
  | .jstr s => s
  | .jarr _ => "[...]"
  | .jobj _ => "{...}"

/-- One HTTP call attempted by `_request`. -/
structure ApiCall where
  method : String
  endpoint : String
  payload : Option Jx := none

/-- What the network does on one call: `requests.request` either raises a
`RequestException` or yields a response with a status code and a body
(`none` body = not JSON-decodable, which `_request` turns into `{}`). -/
inductive NetResult
  | exn (msg : String)
  | resp (status : Nat) (body : Option Jx)

/-- The provider network, as a trace: the result of the `k`-th HTTP call
made in a run.  The call counter is threaded through every adapter
function so distinct calls may behave differently. -/
def Net := Nat → ApiCall → NetResult

/-- A raised `MailerLiteError` (its message). -/
abbrev MLError := String

namespace MailerLite

/-- `_request(method, endpoint, **kwargs)` from mailerlite_client.py:
no API key → warn and return `None` without touching the network;
`RequestException` → raise `MailerLiteError`; 404 → `None`;
other non-ok status (`response.ok` is `status < 400`) → raise
`MailerLiteError`; otherwise the parsed JSON body (`{}` if unparsable).
Returns the result paired with the advanced call counter. -/
def pyRequest (apiKey : Option String) (net : Net) (k : Nat)
    (method endpoint : String) (payload : Option Jx := none) :
    Except MLError (Option Jx) × Nat :=
  match apiKey with
  | none => (.ok none, k)
  | some _ =>
    match net k { method := method, endpoint := endpoint, payload := payload } with
    | .exn msg => (.error msg, k + 1)
    | .resp status body =>
      (if status = 404 then .ok none
       else if 400 ≤ status then .error ("MailerLite API error " ++ toString status)
       else .ok (some (body.getD (.jobj []))), k + 1)

/-- `list_groups(limit)`: `GET /groups`, then `data.get("data", [])`. -/
def list_groups (apiKey : Option String) (net : Net) (k : Nat) :
    Except MLError (List Jx) × Nat :=
  match pyRequest apiKey net k "GET" "/groups" with
  | (.error e, k') => (.error e, k')
  | (.ok d, k') =>
    let d := d.getD (.jobj [])
    (.ok (match d.get "data" with | some (.jarr xs) => xs | _ => []), k')

/-- `ensure_group(name)`: look the group up by name in `list_groups`,
else `POST /groups` and return `(created.get("data") or {}).get("id")`. -/
def ensure_group (apiKey : Option String) (net : Net) (k : Nat) (name : String) :
    Except MLError (Option Jx) × Nat :=
  match list_groups apiKey net k with
  | (.error e, k') => (.error e, k')
  | (.ok groups, k') =>
    match List.find? (fun g =>
        match g.get "name" with | some (.jstr s) => s = name | _ => false) groups with
    | some g => (.ok (g.get "id"), k')
    | none =>
      match pyRequest apiKey net k' "POST" "/groups"
          (some (.jobj [("name", .jstr name)])) with
      | (.error e, k'') => (.error e, k'')
      | (.ok none, k'') => (.ok none, k'')
      | (.ok (some created), k'') =>
        (.ok (((created.get "data").getD (.jobj [])).get "id"), k'')

/-- `get_subscriber(email)`: `GET /subscribers/{email}`;
`if not data: return None; return data.get("data") or data`. -/
def get_subscriber (apiKey : Option String) (net : Net) (k : Nat) (email : String) :
    Except MLError (Option Jx) × Nat :=
  match pyRequest apiKey net k "GET" ("/subscribers/" ++ email) with
  | (.error e, k') => (.error e, k')
  | (.ok none, k') => (.ok none, k')
  | (.ok (some d), k') =>
    if ¬d.truthy then (.ok none, k')
    else
      let inner := (d.get "data").getD .jnull
      (.ok (some (if inner.truthy then inner else d)), k')

/-- `upsert_subscriber(email, status, groups, fields)`: `POST /subscribers`
with the optional parts included when given, then the same post-processing
as `get_subscriber`. -/
def upsert_subscriber (apiKey : Option String) (net : Net) (k : Nat)
    (email : String) (status : Option String := none)
    (groups : Option (List Jx) := none) (fields : Option Jx := none) :
    Except MLError (Option Jx) × Nat :=
  let payload :=
    [("email", Jx.jstr email)]
    ++ (match status with | some s => [("status", Jx.jstr s)] | none => [])
    ++ (match groups with | some g => [("groups", Jx.jarr g)] | none => [])
    ++ (match fields with | some f => [("fields", f)] | none => [])
  match pyRequest apiKey net k "POST" "/subscribers" (some (.jobj payload)) with
  | (.error e, k') => (.error e, k')
  | (.ok none, k') => (.ok none, k')
  | (.ok (some d), k') =>
    if ¬d.truthy then (.ok none, k')
    else
      let inner := (d.get "data").getD .jnull
      (.ok (some (if inner.truthy then inner else d)), k')

/-- `update_subscriber(subscriber_id, status, groups, fields)`: returns
`None` without a call when every optional part is absent, else
`PUT /subscribers/{id}` with the same post-processing. -/
def update_subscriber (apiKey : Option String) (net : Net) (k : Nat)
    (subscriber_id : String) (status : Option String := none)
    (groups : Option (List Jx) := none) (fields : Option Jx := none) :
    Except MLError (Option Jx) × Nat :=
  let payload :=
    (match status with | some s => [("status", Jx.jstr s)] | none => [])
    ++ (match groups with | some g => [("groups", Jx.jarr g)] | none => [])
    ++ (match fields with | some f => [("fields", f)] | none => [])
  if payload.isEmpty then (.ok none, k)
  else
    match pyRequest apiKey net k "PUT" ("/subscribers/" ++ subscriber_id)
        (some (.jobj payload)) with
    | (.error e, k') => (.error e, k')
    | (.ok none, k') => (.ok none, k')
    | (.ok (some d), k') =>
      if ¬d.truthy then (.ok none, k')
      else
        let inner := (d.get "data").getD .jnull
        (.ok (some (if inner.truthy then inner else d)), k')

/-- `assign_subscriber_to_group(subscriber_id, group_id)`. -/
def assign_subscriber_to_group (apiKey : Option String) (net : Net) (k : Nat)
    (subscriber_id group_id : String) : Except MLError Bool × Nat :=
  match pyRequest apiKey net k "POST"
      ("/subscribers/" ++ subscriber_id ++ "/groups/" ++ group_id) with
  | (.error e, k') => (.error e, k')
  | (.ok r, k') => (.ok r.isSome, k')

/-- `NEWSLETTER_GROUP_NAME` (default of the env var). -/
def NEWSLETTER_GROUP_NAME : String := "newsletter_site"

/-- `ensure_newsletter_subscriber(email, fields)` from mailerlite_client.py:
ensure the group, look the subscriber up; an existing record in
`unsubscribed`/`unconfirmed` status is deleted then recreated as
`unconfirmed` (the delete-then-recreate double-opt-in quirk); an `active`
record is just (re)assigned to the group; an absent record is created as
`unconfirmed`. -/
def ensure_newsletter_subscriber (apiKey : Option String) (net : Net) (k : Nat)
    (email : String) (fields : Option Jx := none) :
    Except MLError (Option Jx) × Nat :=
  match ensure_group apiKey net k NEWSLETTER_GROUP_NAME with
  | (.error e, k') => (.error e, k')
  | (.ok gid, k') =>
    let group_id := gid.getD .jnull
    if ¬group_id.truthy then (.ok none, k')
    else
      match get_subscriber apiKey net k' email with
      | (.error e, k'') => (.error e, k'')
      | (.ok (some existing), k'') =>
        let sid := (existing.get "id").getD .jnull
        if ¬sid.truthy then (.ok (some existing), k'')
        else
          let current_status := existing.get "status"
          let needsRecreate : Bool :=
            match current_status with
            | some (.jstr s) => s = "unsubscribed" ∨ s = "unconfirmed"
            | _ => false
          if needsRecreate then
            match pyRequest apiKey net k'' "DELETE"
                ("/subscribers/" ++ sid.asPyStr) with
            | (.error e, k3) => (.error e, k3)
            | (.ok _, k3) =>
              upsert_subscriber apiKey net k3 email (some "unconfirmed")
                (some [group_id]) fields
          else
            match assign_subscriber_to_group apiKey net k'' sid.asPyStr
                group_id.asPyStr with
            | (.error e, k3) => (.error e, k3)
            | (.ok _, k3) => (.ok (some existing), k3)
      | (.ok none, k'') =>
        upsert_subscriber apiKey net k'' email (some "unconfirmed")
          (some [group_id]) fields

/-- `mark_subscriber_confirmed(email)`: set the remote record `active`. -/
def mark_subscriber_confirmed (apiKey : Option String) (net : Net) (k : Nat)
    (email : String) : Except MLError (Option Jx) × Nat :=
  match get_subscriber apiKey net k email with
  | (.error e, k') => (.error e, k')
  | (.ok none, k') => (.ok none, k')
  | (.ok (some existing), k') =>
    let sid := (existing.get "id").getD .jnull
    if ¬sid.truthy then (.ok (some existing), k')
    else update_subscriber apiKey net k' sid.asPyStr (some "active")

/-- `mark_subscriber_unsubscribed(email)`. -/
def mark_subscriber_unsubscribed (apiKey : Option String) (net : Net) (k : Nat)
    (email : String) : Except MLError Bool × Nat :=
  match get_subscriber apiKey net k email with
  | (.error e, k') => (.error e, k')
  | (.ok none, k') => (.ok false, k')
  | (.ok (some existing), k') =>
    let sid := (existing.get "id").getD .jnull
    if ¬sid.truthy then (.ok false, k')
    else
      match update_subscriber apiKey net k' sid.asPyStr (some "unsubscribed")
          (some []) with
      | (.error e, k'') => (.error e, k'')
      | (.ok _, k'') => (.ok true, k'')

/-- `SENDER_EMAIL` / `SENDER_NAME` defaults. -/
def SENDER_EMAIL : String := "newsletter@elisabeth-constantin.fr"

def SENDER_NAME : String := "Elisabeth Constantin"

/-- `_build_campaign_payload(subject, html_content, group_ids)`; the
`uuid.uuid4().hex[:6]` fallback name is the explicit `uuidHex` argument. -/
def build_campaign_payload (subject html_content : String)
    (group_ids : List String) (uuidHex : String) : Jx :=
  .jobj
    [("name", .jstr (if subject ≠ "" then subject else "Campaign-" ++ uuidHex)),
     ("type", .jstr "regular"),
     ("emails", .jarr
       [.jobj
         [("subject", .jstr subject),
          ("from", .jstr SENDER_EMAIL),
          ("from_name", .jstr SENDER_NAME),
          ("reply_to", .jstr SENDER_EMAIL),
          ("content", .jstr html_content)]]),
     ("groups", .jarr (group_ids.map Jx.jstr)),
     ("settings", .jobj [("track_opens", .jbool true),
                         ("use_google_analytics", .jbool false)])]

/-- `send_campaign(subject, html_content, group_ids)` from
mailerlite_client.py: `POST /campaigns`, extract
`(created or {}).get("data", {}).get("id")`, then
`POST /campaigns/{id}/schedule`; `False` when a step yields nothing.
A `MailerLiteError` raised by `_request` is not caught here. -/
def send_campaign (apiKey : Option String) (net : Net) (k : Nat)
    (subject html_content : String) (group_ids : List String)
    (uuidHex : String) : Except MLError Bool × Nat :=
  if group_ids.isEmpty then (.ok false, k)
  else
    match pyRequest apiKey net k "POST" "/campaigns"
        (some (build_campaign_payload subject html_content group_ids uuidHex)) with
    | (.error e, k') => (.error e, k')
    | (.ok created, k') =>
      let campaign_id :=
        (((created.getD (.jobj [])).get "data").getD (.jobj [])).get "id"
      let campaign_id := campaign_id.getD .jnull
      if ¬campaign_id.truthy then (.ok false, k')
      else
        match pyRequest apiKey net k' "POST"
            ("/campaigns/" ++ campaign_id.asPyStr ++ "/schedule")
            (some (.jobj [("delivery", .jstr "instant")])) with
        | (.error e, k'') => (.error e, k'')
        | (.ok scheduled, k'') =>
          if scheduled.isNone then (.ok false, k'') else (.ok true, k'')

/-- `send_to_newsletter(subject, html_content)`: resolve the newsletter
group then `send_campaign` to it. -/
def send_to_newsletter (apiKey : Option String) (net : Net) (k : Nat)
    (subject html_content : String) (uuidHex : String) :
    Except MLError Bool × Nat :=
  match ensure_group apiKey net k NEWSLETTER_GROUP_NAME with
  | (.error e, k') => (.error e, k')
  | (.ok gid, k') =>
    let group_id := gid.getD .jnull
    if ¬group_id.truthy then (.ok false, k')
    else send_campaign apiKey net k' subject html_content [group_id.asPyStr] uuidHex

end MailerLite

/-- Python `s.replace(pat, rep)` on character lists, left-to-right and
non-overlapping, with an explicit fuel so the recursion is structural
(each step consumes at least one character, so `s.length` fuel is enough;
the patterns used here are never empty). -/
def listReplaceAux (pat rep : List Char) : Nat → List Char → List Char
  | 0, s => s
  | _ + 1, [] => []
  | fuel + 1, c :: rest =>
    if pat ≠ [] ∧ (c :: rest).take pat.length = pat then
      rep ++ listReplaceAux pat rep fuel ((c :: rest).drop pat.length)
    else
      c :: listReplaceAux pat rep fuel rest

/-- Python `s.replace(pat, rep)` (`String.replace` does not reduce in the
kernel). -/
def pyReplace (s pat rep : String) : String :=
  ⟨listReplaceAux pat.data rep.data s.data.length s.data⟩

namespace MailerLite

/-- `render_template(template_name, context)` from mailerlite_client.py:
read the template (the `mail-templates/` directory is the `templates`
map; a missing file logs an error and yields `""`), then substitute each
`{{key}}` with `str(value or "")` — the context here already carries the
stringified values. -/
def render_template (templates : String → Option String)
    (template_name : String) (context : List (String × String)) : String :=
  match templates template_name with
  | none => ""
  | some content =>
    context.foldl
      (fun acc kv => pyReplace acc ("\x7b\x7b" ++ kv.1 ++ "\x7d\x7d") kv.2) content

end MailerLite

namespace Notifications

/-- `FRONTEND_URL` / `BACKEND_URL` defaults of notifications.py. -/
def BASE_FRONTEND_URL : String := "http://localhost:5173"

def BACKEND_URL : String := "http://localhost:8000"

/-- `_format_price` from notifications.py (prices as whole euros). -/
def format_price : Option Nat → String
  | none => "Prix sur demande"
  | some p => toString p ++ " €"

/-- Python truthiness of an optional number (`if width and height`). -/
def optNatTruthy : Option Nat → Bool
  | none => false
  | some n => n ≠ 0

/-- `_format_dimensions` from notifications.py. -/
def format_dimensions (width height : Option Nat) : String :=
  if optNatTruthy width ∧ optNatTruthy height then
    toString (width.getD 0) ++ " x " ++ toString (height.getD 0) ++ " cm"
  else if optNatTruthy width ∨ optNatTruthy height then
    toString ((width.filter (· ≠ 0)).getD ((height.filter (· ≠ 0)).getD 0)) ++ " cm"
  else ""

/-- Python `s[:320]`. -/
def pyTake320 (s : String) : String := ⟨s.data.take 320⟩

/-- The rendering fields of an artwork document, as read by
`notify_new_artwork` (the artwork CRUD is an external collaborator; the
dispatcher only `get`s these fields). -/
structure Artwork where
  title : String := ""
  description : String := ""
  price : Option Nat := none
  main_image : String := ""
  image_url : String := ""
  width : Option Nat := none
  height : Option Nat := none
  deriving DecidableEq, Repr

/-- The `{sent, failed, errors}` result of a dispatch run. -/
structure NotifyResult where
  sent : Nat
  failed : Nat
  errors : List String
  deriving DecidableEq, Repr

/-- A stand-in for the stored JWT string when a token is embedded in an
unsubscribe URL. -/
def tokenString (t : Token) : String :=
  t.payload.email ++ "." ++ t.payload.typ ++ "." ++ toString t.payload.exp

/-- `_update_stats_on_success(sent_count)` from notifications.py: when at
least one send succeeded, `increment_email_stats(email, sent=True)` for
EVERY subscriber `get_active_subscribers()` returns — not only for the
recipients whose send succeeded. -/
def update_stats_on_success (sent_count : Nat) (store : Store) (now : Nat) : Store :=
  if sent_count = 0 then store
  else
    (SubscriberRepository.get_active_subscribers store).foldl
      (fun st sub =>
        (SubscriberRepository.increment_email_stats st sub.email true false false now).1)
      store

/-- The per-recipient send loop of `notify_new_artwork`: iterate the
recipients, skip those without an unsubscribe token, render the template
with the recipient's unsubscribe URL, collect a send failure as an error
string; a `MailerLiteError` raised by `send_to_newsletter` propagates. -/
def artworkLoop (apiKey : Option String) (net : Net)
    (templates : String → Option String) (uuidHex : String)
    (subject : String) (artwork : Artwork) (art_link : String) :
    List Subscriber → Nat → Nat → List String →
    Except MLError (Nat × List String) × Nat
  | [], k, sent, errors => (.ok (sent, errors), k)
  | sub :: rest, k, sent, errors =>
    match sub.unsubscribe_token with
    | none => artworkLoop apiKey net templates uuidHex subject artwork art_link
        rest k sent errors
    | some tok =>
      let unsubscribe_url :=
        BACKEND_URL ++ "/api/newsletter/unsubscribe?token=" ++ tokenString tok
      let html := MailerLite.render_template templates "new-artwork.html"
        [("title", if artwork.title ≠ "" then artwork.title else "Nouvelle œuvre"),
         ("description", pyTake320 artwork.description),
         ("price", format_price artwork.price),
         ("image_url", if artwork.main_image ≠ "" then artwork.main_image
                       else artwork.image_url),
         ("link", art_link),
         ("dimensions", format_dimensions artwork.width artwork.height),
         ("unsubscribe_url", unsubscribe_url)]
      if html = "" then
        artworkLoop apiKey net templates uuidHex subject artwork art_link
          rest k sent (errors ++ ["Template render failed for " ++ sub.email])
      else
        match MailerLite.send_to_newsletter apiKey net k subject html uuidHex with
        | (.error e, k') => (.error e, k')
        | (.ok true, k') =>
          artworkLoop apiKey net templates uuidHex subject artwork art_link
            rest k' (sent + 1) errors
        | (.ok false, k') =>
          artworkLoop apiKey net templates uuidHex subject artwork art_link
            rest k' sent (errors ++ ["Send failed for " ++ sub.email])

/-- `notify_new_artwork(artwork_id)` from notifications.py.  The artwork
CRUD lookup result is the `artwork` argument; the run returns the
`{sent, failed, errors}` dict and the store after
`_update_stats_on_success`. -/
def notify_new_artwork (apiKey : Option String) (net : Net) (k : Nat)
    (templates : String → Option String) (uuidHex : String)
    (artwork : Option Artwork) (artwork_id : String) (store : Store)
    (now : Nat) : Except MLError (NotifyResult × Store) × Nat :=
  match artwork with
  | none => (.ok ({ sent := 0, failed := 1, errors := ["Artwork not found"] }, store), k)
  | some artwork =>
    let art_link := BASE_FRONTEND_URL ++ "/tableau/" ++ artwork_id
    let subject := "Nouvelle œuvre : " ++ artwork.title
    let subscribers := SubscriberRepository.get_active_subscribers store
    if subscribers.isEmpty then
      (.ok ({ sent := 0, failed := 0, errors := [] }, store), k)
    else
      match artworkLoop apiKey net templates uuidHex subject artwork art_link
          subscribers k 0 [] with
      | (.error e, k') => (.error e, k')
      | (.ok (sent_count, errors), k') =>
        let store' := update_stats_on_success sent_count store now
        (.ok ({ sent := sent_count, failed := errors.length, errors := errors },
              store'), k')

end Notifications

/-- The observable outcome of a FastAPI endpoint call:
a normal return value, a `raise HTTPException(status, detail)`, or an
unhandled Python exception (exception class name and message). -/
inductive PyOutcome (α : Type)
  | ok (val : α)
  | httpError (status : Nat) (detail : String)
  | exn (name msg : String)

namespace NewsletterRouter

/-- `FRONTEND_URL` default of newsletter.py. -/
def FRONTEND_URL : String := "http://localhost:5173"

/-- The creation path of `subscribe_to_newsletter` (reached when no record
exists for the email, or one exists in `bounced`/`complained` status,
which matches none of the three branches and falls through): generate both
tokens, `create` the record, add it to MailerLite, return the full
response dict.  `create` fails on the fall-through case because the email
exists, giving the 500. -/
def subscribeCreatePath (apiKey : Option String) (net : Net) (k : Nat)
    (store : Store) (email : String) (client_ip : Option String)
    (user_agent : String) (now : Nat) : PyOutcome Jx × Store × Nat :=
  let confirmation_token := generate_confirmation_token email now
  let unsubscribe_token := generate_unsubscribe_token email now
  let subscriber_data : Subscriber :=
    { email := email, status := .pending, consent_accepted := true,
      consent_ip := client_ip, consent_user_agent := some user_agent,
      source := "front_form",
      confirmation_token := some confirmation_token,
      unsubscribe_token := some unsubscribe_token }
  let created := SubscriberRepository.create store subscriber_data now
  let store' := created.1
  match created.2 with
  | none =>
    (.httpError 500 "Erreur lors de l’inscription. Veuillez réessayer.", store', k)
  | some _ =>
    match MailerLite.ensure_newsletter_subscriber apiKey net k email with
    | (.error e, k') => (.exn "MailerLiteError" e, store', k')
    | (.ok _, k') =>
      (.ok (.jobj
        [("message", .jstr "Email de vérification envoyé."),
         ("email", .jstr email),
         ("status", .jstr "pending"),
         ("benefit", .jstr "Vous recevrez 10% de réduction sur votre premier achat une fois confirmé !")]),
       store', k')

/-- `subscribe_to_newsletter` from newsletter.py.  `client_ip` and
`user_agent` are the request attributes read at lines 106–107; the
resubscription branch for an `unsubscribed` record builds its update dict
from the local variables `client_ip`/`user_agent` BEFORE those lines run,
so Python raises `UnboundLocalError` there (before any store write). -/
def subscribe_to_newsletter (apiKey : Option String) (net : Net) (k : Nat)
    (store : Store) (reqEmail : String) (consent_accepted : Bool)
    (client_ip : Option String) (user_agent : String) (now : Nat) :
    PyOutcome Jx × Store × Nat :=
  let email := pyLower (pyStrip reqEmail)
  if ¬consent_accepted then
    (.httpError 400 "Le consentement RGPD doit être accepté pour s’inscrire",
     store, k)
  else
    match SubscriberRepository.get_by_email store email with
    | some existing =>
      if existing.status = .confirmed then
        (.httpError 409 "Adresse email déjà abonnée.", store, k)
      else if existing.status = .unsubscribed then
        (.exn "UnboundLocalError"
          "cannot access local variable client_ip where it is not associated with a value",
         store, k)
      else if existing.status = .pending then
        match MailerLite.ensure_newsletter_subscriber apiKey net k email with
        | (.error e, k') => (.exn "MailerLiteError" e, store, k')
        | (.ok _, k') =>
          (.ok (.jobj [("message", .jstr "Email de vérification renvoyé.")]),
           store, k')
      else
        subscribeCreatePath apiKey net k store email client_ip user_agent now
    | none =>
      subscribeCreatePath apiKey net k store email client_ip user_agent now

/-- `confirm_subscription(token)` from newsletter.py; the `promoHex`
argument is the `secrets.token_hex(3).upper()` draw.  The result value is
the redirect URL. -/
def confirm_subscription (apiKey : Option String) (net : Net) (k : Nat)
    (store : Store) (token : Token) (now : Nat) (promoHex : String) :
    PyOutcome String × Store × Nat :=
  match verify_confirmation_token token now with
  | none =>
    (.ok (FRONTEND_URL ++ "/newsletter/error?reason=invalid_token"), store, k)
  | some email =>
    match SubscriberRepository.get_by_email store email with
    | none =>
      (.ok (FRONTEND_URL ++ "/newsletter/error?reason=not_found"), store, k)
    | some subscriber =>
      if subscriber.status = .confirmed then
        let promo_code := subscriber.promo_code.getD ""
        (.ok (FRONTEND_URL ++ "/newsletter/confirmed?promo=" ++ promo_code
              ++ "&already=true"), store, k)
      else
        let promo_code := "EC10-" ++ promoHex
        let updated := SubscriberRepository.confirm store email promo_code now
        if ¬updated.2 then
          (.ok (FRONTEND_URL ++ "/newsletter/error?reason=update_failed"),
           updated.1, k)
        else
          match MailerLite.mark_subscriber_confirmed apiKey net k email with
          | (.error e, k') => (.exn "MailerLiteError" e, updated.1, k')
          | (.ok _, k') =>
            (.ok (FRONTEND_URL ++ "/newsletter/confirmed?promo=" ++ promo_code),
             updated.1, k')

/-- `unsubscribe_from_newsletter` (POST) from newsletter.py. -/
def unsubscribe_from_newsletter (apiKey : Option String) (net : Net) (k : Nat)
    (store : Store) (token : Token) (reason : Option String) (now : Nat) :
    PyOutcome Jx × Store × Nat :=
  match verify_unsubscribe_token token now with
  | none =>
    (.httpError 400 "Token de désinscription invalide ou expiré", store, k)
  | some email =>
    match SubscriberRepository.get_by_email store email with
    | none => (.httpError 404 "Abonné introuvable", store, k)
    | some _ =>
      let updated := SubscriberRepository.unsubscribe store email reason now
      if ¬updated.2 then
        (.httpError 500 "Erreur lors de la désinscription", updated.1, k)
      else
        match MailerLite.mark_subscriber_unsubscribed apiKey net k email with
        | (.error e, k') => (.exn "MailerLiteError" e, updated.1, k')
        | (.ok _, k') =>
          (.ok (.jobj
            [("message", .jstr "Vous avez été désinscrit de la newsletter avec succès."),
             ("email", .jstr email)]), updated.1, k')

/-- `mark_promo_as_used(email)` from newsletter.py: look the record up;
the update dict evaluates `datetime.utcnow()`, but newsletter.py never
imports `datetime`, so the call raises `NameError` before the update (the
store is unchanged). -/
def mark_promo_as_used (store : Store) (email : String) :
    PyOutcome Jx × Store :=
  let clean_email := pyLower (pyStrip email)
  match SubscriberRepository.get_by_email store clean_email with
  | none => (.httpError 404 "Abonné introuvable", store)
  | some _ => (.exn "NameError" "name datetime is not defined", store)

/-- `check_subscriber_status(email)` from newsletter.py. -/
def check_subscriber_status (store : Store) (email : String) : PyOutcome Jx :=
  let clean_email := pyLower (pyStrip email)
  match SubscriberRepository.get_by_email store clean_email with
  | none =>
    .ok (.jobj [("is_subscriber", .jbool false), ("discount", .jnum 0),
                ("promo_code", .jnull)])
  | some subscriber =>
    if subscriber.status = .confirmed then
      if subscriber.promo_used then
        .ok (.jobj [("is_subscriber", .jbool true), ("discount", .jnum 0),
                    ("promo_code", .jnull),
                    ("message", .jstr "Code promo déjà utilisé")])
      else
        .ok (.jobj [("is_subscriber", .jbool true), ("discount", .jnum 10),
                    ("promo_code",
                     match subscriber.promo_code with
                     | some p => .jstr p
                     | none => .jnull),
                    ("message", .jstr "Réduction abonné newsletter appliquée")])
    else
      .ok (.jobj [("is_subscriber", .jbool false), ("discount", .jnum 0),
                  ("promo_code", .jnull)])

end NewsletterRouter

namespace MailjetWebhooks

/-- One Mailjet event object, with the keys the handlers read; `none`
models an absent key. -/
structure MailjetEvent where
  event : Option String := none
  email : Option String := none
  hard_bounce : Bool := false
  smtp_reply : String := ""
  comment : String := ""
  source : String := ""
  url : String := ""
  deriving DecidableEq, Repr

/-- `process_mailjet_event(event)` from mailjet_webhooks.py: skip when the
email is missing/empty or unknown; otherwise dispatch on the event type
(`bounce` only acts on `hard_bounce`; unknown types are ignored). -/
def process_mailjet_event (store : Store) (e : MailjetEvent) (now : Nat) : Store :=
  let email := pyLower (e.email.getD "")
  if email = "" then store
  else
    match SubscriberRepository.get_by_email store email with
    | none => store
    | some _ =>
      if e.event = some "bounce" then
        if e.hard_bounce then (SubscriberRepository.mark_bounced store email).1
        else store
      else if e.event = some "blocked" then
        (SubscriberRepository.mark_bounced store email).1
      else if e.event = some "spam" then
        (SubscriberRepository.mark_complained store email).1
      else if e.event = some "unsub" then
        (SubscriberRepository.unsubscribe store email
          (some "Désinscription via lien Mailjet") now).1
      else if e.event = some "sent" then
        (SubscriberRepository.increment_email_stats store email true false false now).1
      else if e.event = some "open" then
        (SubscriberRepository.increment_email_stats store email false true false now).1
      else if e.event = some "click" then
        (SubscriberRepository.increment_email_stats store email false false true now).1
      else store

/-- `handle_mailjet_webhook(request)` from mailjet_webhooks.py, applied to
an already-JSON-decoded list payload (the not-a-list 400 branch concerns
payloads outside this type).  Each event is processed in order; the
handlers never raise on these inputs, so the endpoint returns the
success dict with the event count. -/
def handle_mailjet_webhook (store : Store) (events : List MailjetEvent)
    (now : Nat) : PyOutcome Jx × Store :=
  let store' := events.foldl (fun st e => process_mailjet_event st e now) store
  (.ok (.jobj [("message", .jstr "Webhook processed"),
               ("events", .jnum events.length)]), store')

end MailjetWebhooks

namespace SyncScript

/-- One subscriber record as returned by the provider's group listing
(`sync_mailerlite_status.py` reads `email` and `status`). -/
structure MLRecord where
  email : Option String := none
  status : Option String := none
  deriving DecidableEq, Repr

/-- The per-record body of the loop in `sync_mailerlite_to_db`
(src/scripts/sync_mailerlite_status.py lines 45–86): skip a record without
an email or without a local counterpart; `active` with a local status
other than `confirmed` confirms locally (reusing the stored promo code or
drawing `EC10-` + `promoHex`); `unsubscribed`/`bounced`/`junk` apply the
corresponding repository transition when the local status differs. -/
def syncStep (store : Store) (ml : MLRecord) (promoHex : String) (now : Nat) :
    Store :=
  match ml.email with
  | none => store
  | some email =>
    if email = "" then store
    else
      match SubscriberRepository.get_by_email store email with
      | none => store
      | some db =>
        if ml.status = some "active" ∧ db.status ≠ .confirmed then
          let promo_code :=
            match db.promo_code with
            | some p => if p ≠ "" then p else "EC10-" ++ promoHex
            | none => "EC10-" ++ promoHex
          (SubscriberRepository.confirm store email promo_code now).1
        else if ml.status = some "unsubscribed" ∧ db.status ≠ .unsubscribed then
          (SubscriberRepository.unsubscribe store email
            (some "Synced from MailerLite") now).1
        else if ml.status = some "bounced" ∧ db.status ≠ .bounced then
          (SubscriberRepository.mark_bounced store email).1
        else if ml.status = some "junk" ∧ db.status ≠ .complained then
          (SubscriberRepository.mark_complained store email).1
        else store

/-- `sync_mailerlite_to_db()` applied to the provider listing it fetched
(the `ensure_group` + `list_group_subscribers` fetch stage is the
`mlRecords` argument; `promoHexes i` is the `secrets.token_hex` draw for
the `i`-th record). -/
def sync_mailerlite_to_db (store : Store) (mlRecords : List MLRecord)
    (promoHexes : Nat → String) (now : Nat) : Store :=
  (mlRecords.enum.foldl
    (fun st rec => syncStep st rec.2 (promoHexes rec.1) now) store)

end SyncScript

/-! ## Store lemmas shared by the claim proofs -/

namespace SubscriberRepository

/-- A record of an updated store is either an original record or the
update applied to an original record whose email matched. -/
theorem mem_updateFirst {e : String} {f : Subscriber → Subscriber} :
    ∀ {store : Store} {r' : Subscriber}, r' ∈ (updateFirst store e f).1 →
      r' ∈ store ∨ ∃ r, r ∈ store ∧ r.email = e ∧ r' = f r := by
  intro store
  induction store with
  | nil => intro r' h; simp [updateFirst] at h
  | cons a as ih =>
    intro r' h
    simp only [updateFirst] at h
    by_cases ha : a.email = e
    · rw [if_pos ha] at h
      rcases List.mem_cons.mp h with h1 | h2
      · exact Or.inr ⟨a, List.mem_cons_self a as, ha, h1⟩
      · exact Or.inl (List.mem_cons_of_mem a h2)
    · rw [if_neg ha] at h
      rcases List.mem_cons.mp h with h1 | h2
      · exact Or.inl (h1 ▸ List.mem_cons_self a as)
      · rcases ih h2 with h3 | ⟨r, hr, hre, hrf⟩
        · exact Or.inl (List.mem_cons_of_mem a h3)
        · exact Or.inr ⟨r, List.mem_cons_of_mem a hr, hre, hrf⟩

/-- After an update keyed on the email of a found record, the lookup
returns the updated record (provided the update keeps the email). -/
theorem get_by_email_update {store : Store} {e : String}
    {f : Subscriber → Subscriber} {r : Subscriber}
    (h : get_by_email store e = some r) (hf : (f r).email = r.email) :
    get_by_email (update store e f).1 e = some (f r) := by
  unfold get_by_email update at *
  induction store with
  | nil => simp [List.find?] at h
  | cons a as ih =>
    by_cases ha : a.email = pyLower e
    · rw [List.find?_cons_of_pos _ (by simpa using ha)] at h
      injection h with h
      subst h
      simp only [updateFirst, if_pos ha]
      exact List.find?_cons_of_pos _ (by simpa using hf.trans ha)
    · rw [List.find?_cons_of_neg _ (by simpa using ha)] at h
      simp only [updateFirst, if_neg ha]
      rw [List.find?_cons_of_neg _ (by simpa using ha)]
      exact ih h

/-- An update keyed on the email of a found record that genuinely changes
it reports `modified_count > 0`. -/
theorem update_modified {store : Store} {e : String}
    {f : Subscriber → Subscriber} {r : Subscriber}
    (h : get_by_email store e = some r) (hne : f r ≠ r) :
    (update store e f).2 = true := by
  unfold get_by_email update at *
  induction store with
  | nil => simp [List.find?] at h
  | cons a as ih =>
    by_cases ha : a.email = pyLower e
    · rw [List.find?_cons_of_pos _ (by simpa using ha)] at h
      injection h with h
      subst h
      simp only [updateFirst, if_pos ha]
      simpa using hne
    · rw [List.find?_cons_of_neg _ (by simpa using ha)] at h
      simp only [updateFirst, if_neg ha]
      exact ih h

/-- Membership transfer for updates whose transformer preserves the email
and never manufactures a `confirmed` status. -/
theorem mem_update_no_confirm {store : Store} {e : String}
    {f : Subscriber → Subscriber} {r' : Subscriber}
    (h : r' ∈ (update store e f).1)
    (hstat : ∀ r, (f r).status = .confirmed → r.status = .confirmed)
    (hmail : ∀ r, (f r).email = r.email)
    (hc : r'.status = .confirmed) :
    ∃ r, r ∈ store ∧ r.status = .confirmed ∧ r.email = r'.email := by
  rcases mem_updateFirst h with h1 | ⟨r, hr, _, hrf⟩
  · exact ⟨r', h1, hc, rfl⟩
  · exact ⟨r, hr, hstat r (hrf ▸ hc), (hrf ▸ hmail r).symm⟩

end SubscriberRepository

/-- `send_campaign` without an API key returns `false` without any
network call. -/
theorem send_campaign_none_key (net : Net) (k : Nat)
    (subject html uuidHex : String) (gids : List String) :
    MailerLite.send_campaign none net k subject html gids uuidHex
      = (.ok false, k) := by
  by_cases hg : gids.isEmpty
  · unfold MailerLite.send_campaign
    rw [if_pos hg]
  · unfold MailerLite.send_campaign
    rw [if_neg hg]
    rfl

/-- `Char.ofNat` on a valid codepoint round-trips through `toNat`. -/
theorem toNat_ofNat_valid {n : Nat} (hv : n.isValidChar) :
    (Char.ofNat n).toNat = n := by
  rw [Char.ofNat, dif_pos hv]
  simp [Char.ofNatAux, Char.toNat, UInt32.toNat]

/-- Lowercasing a character is idempotent. -/
theorem lowerChar_idem (c : Char) : lowerChar (lowerChar c) = lowerChar c := by
  unfold lowerChar
  by_cases h : 65 ≤ c.toNat ∧ c.toNat ≤ 90
  · rw [if_pos h]
    have hv : (c.toNat + 32).isValidChar := by
      unfold Nat.isValidChar
      omega
    rw [if_neg]
    rw [toNat_ofNat_valid hv]
    omega
  · rw [if_neg h, if_neg h]

/-- `str.lower()` is idempotent. -/
theorem pyLower_idem (s : String) : pyLower (pyLower s) = pyLower s := by
  unfold pyLower
  simp [List.map_map, Function.comp_def, lowerChar_idem]

/-! ## Claim theorems -/

/-- C2: for every store state, the broadcast recipient read path
(`get_active_subscribers`, the repository behind
`get_active_for_broadcast`) returns exactly the records whose status is
`confirmed`: a record is in its result iff it is in the store with status
`confirmed`, so no `pending`, `unsubscribed`, `bounced` or `complained`
record ever appears. -/
theorem c2_broadcast_read_path_confirmed_only (store : Store) (r : Subscriber) :
    r ∈ SubscriberRepository.get_active_subscribers store ↔
      r ∈ store ∧ r.status = SubscriberStatus.confirmed := by
  simp [SubscriberRepository.get_active_subscribers, List.mem_filter]

/-- C5: a token whose embedded `type` claim differs from the type the
verifying flow expects is rejected even when its signature is valid and it
is unexpired: the confirmation flow rejects a `type=unsubscribe` token and
the unsubscribe flow rejects a `type=confirmation` token. -/
theorem c5_wrong_token_type_rejected (t : Token) (now : Nat)
    (hsig : t.signedWith = JWT_SECRET) (hexp : now < t.payload.exp) :
    (t.payload.typ = "unsubscribe" → verify_confirmation_token t now = none) ∧
    (t.payload.typ = "confirmation" → verify_unsubscribe_token t now = none) := by
  constructor <;> intro hty <;>
    simp [verify_confirmation_token, verify_unsubscribe_token, verify_token,
          jwtDecode, hsig, hty, Nat.not_le.mpr hexp]

/-- Witness for C5: concrete fresh tokens of each kind, rejected by the
opposite flow while still within their validity windows. -/
theorem c5_wrong_token_type_rejected_witness :
    verify_confirmation_token (generate_unsubscribe_token "a@x.com" 0) 100 = none ∧
    verify_unsubscribe_token (generate_confirmation_token "a@x.com" 0) 100 = none :=
  ⟨(c5_wrong_token_type_rejected (generate_unsubscribe_token "a@x.com" 0) 100
      rfl (by decide)).1 rfl,
   (c5_wrong_token_type_rejected (generate_confirmation_token "a@x.com" 0) 100
      rfl (by decide)).2 rfl⟩

/-- C9 (evaluation at the failing input): for an email with a record in
the Registry, `mark_promo_as_used` raises `NameError` — newsletter.py
uses `datetime.utcnow()` without importing `datetime` — instead of
setting `promo_used`/`promo_used_at`; the store is unchanged. -/
theorem c9_mark_promo_used_raises_nameerror :
    NewsletterRouter.mark_promo_as_used
      [{ email := "a@x.com", status := .confirmed,
         promo_code := some "EC10-AAAAAA" }] "a@x.com"
    = (.exn "NameError" "name datetime is not defined",
       [{ email := "a@x.com", status := .confirmed,
          promo_code := some "EC10-AAAAAA" }]) := rfl

/-- C4 (evaluation at the failing input): a subscribe request with fresh
consent for an `unsubscribed` record raises `UnboundLocalError` — the
resubscription branch of `subscribe_to_newsletter` reads the local
`client_ip`/`user_agent` before the lines that assign them — so the
record is not reset to `pending`, no new tokens are issued, and the
operation does not complete. -/
theorem c4_resubscribe_raises_unboundlocalerror :
    NewsletterRouter.subscribe_to_newsletter (some "key")
      (fun _ _ => .resp 200 (some (.jobj []))) 0
      [{ email := "b@x.com", status := .unsubscribed, unsubscribed_at := some 50 }]
      "b@x.com" true (some "203.0.113.7") "Mozilla/5.0" 100
    = (.exn "UnboundLocalError"
        "cannot access local variable client_ip where it is not associated with a value",
       [{ email := "b@x.com", status := .unsubscribed, unsubscribed_at := some 50 }],
       0) := rfl

/-- C7 counterexample: with an API key configured and the provider
answering the campaign-creation POST with HTTP 500, `send_campaign` does
not return a boolean — the `MailerLiteError` raised by `_request`
propagates to the caller. -/
theorem c7_counterexample_http_500_raises :
    MailerLite.send_campaign (some "key") (fun _ _ => .resp 500 none) 0
      "Nouvelle œuvre : X" "<p>x</p>" ["group-1"] "abc123"
    = (.error "MailerLite API error 500", 1) := rfl

/-- C7 (amended): `send_campaign` returns `false` when the API key is
missing (no network contact), but it does not catch `MailerLiteError`: a
network exception or a non-404 HTTP error status on the
campaign-creation call raises and propagates to the caller. -/
theorem c7_send_campaign_error_propagation :
    (∀ (net : Net) (k : Nat) (subject html uuidHex : String)
        (gids : List String),
      MailerLite.send_campaign none net k subject html gids uuidHex
        = (.ok false, k)) ∧
    (∀ (key : String) (net : Net) (k : Nat) (subject html uuidHex msg : String)
        (gids : List String),
      gids ≠ [] →
      net k { method := "POST", endpoint := "/campaigns",
              payload := some (MailerLite.build_campaign_payload subject html
                gids uuidHex) } = .exn msg →
      MailerLite.send_campaign (some key) net k subject html gids uuidHex
        = (.error msg, k + 1)) ∧
    (∀ (key : String) (net : Net) (k : Nat) (subject html uuidHex : String)
        (gids : List String) (status : Nat) (body : Option Jx),
      gids ≠ [] → 400 ≤ status → status ≠ 404 →
      net k { method := "POST", endpoint := "/campaigns",
              payload := some (MailerLite.build_campaign_payload subject html
                gids uuidHex) } = .resp status body →
      MailerLite.send_campaign (some key) net k subject html gids uuidHex
        = (.error ("MailerLite API error " ++ toString status), k + 1)) := by
  refine ⟨?_, ?_, ?_⟩
  · intro net k subject html uuidHex gids
    by_cases hg : gids.isEmpty
    · unfold MailerLite.send_campaign
      rw [if_pos hg]
    · unfold MailerLite.send_campaign
      rw [if_neg hg]
      rfl
  · intro key net k subject html uuidHex msg gids hg hnet
    have hg' : ¬gids.isEmpty := by simpa using hg
    unfold MailerLite.send_campaign
    rw [if_neg hg']
    unfold MailerLite.pyRequest
    rw [hnet]
  · intro key net k subject html uuidHex gids status body hg h400 h404 hnet
    have hg' : ¬gids.isEmpty := by simpa using hg
    unfold MailerLite.send_campaign
    rw [if_neg hg']
    unfold MailerLite.pyRequest
    rw [hnet]
    dsimp only
    rw [if_neg h404, if_pos h400]

/-- Witness for C7 (amended): the three behaviours at concrete inputs. -/
theorem c7_send_campaign_error_propagation_witness :
    MailerLite.send_campaign none (fun _ _ => .resp 200 none) 0
      "S" "H" ["g"] "u" = (.ok false, 0) ∧
    MailerLite.send_campaign (some "k") (fun _ _ => .exn "timeout") 0
      "S" "H" ["g"] "u" = (.error "timeout", 1) ∧
    MailerLite.send_campaign (some "k") (fun _ _ => .resp 503 none) 0
      "S" "H" ["g"] "u" = (.error "MailerLite API error 503", 1) :=
  ⟨c7_send_campaign_error_propagation.1 (fun _ _ => .resp 200 none) 0 "S" "H" "u" ["g"],
   c7_send_campaign_error_propagation.2.1 "k" (fun _ _ => .exn "timeout") 0
     "S" "H" "u" "timeout" ["g"] (by decide) rfl,
   c7_send_campaign_error_propagation.2.2 "k" (fun _ _ => .resp 503 none) 0
     "S" "H" "u" ["g"] 503 none (by decide) (by decide) (by decide) rfl⟩

/-- C1 counterexample: reconciliation applies a forbidden transition.  A
record in the terminal suppression state `bounced` is moved into
`confirmed` by the sync step when the provider reports `active`. -/
theorem c1_counterexample_sync_confirms_bounced :
    SyncScript.syncStep [{ email := "a@x.com", status := .bounced }]
      { email := some "a@x.com", status := some "active" } "AB12CD" 10
    = [{ email := "a@x.com", status := .confirmed, confirmed_at := some 10,
         promo_code := some "EC10-AB12CD" }] := rfl

/-- C1 (amended): webhook ingestion never moves a record into `confirmed`
(a confirmed record in the processed store descends from an
already-confirmed record with the same email), but the state machine has
no guard elsewhere: the reconciliation sync moves an `unsubscribed`
record into `confirmed` when the provider reports `active`, and the
confirm flow moves a `bounced` record into `confirmed` when presented a
valid confirmation token — the only guard in those paths is the
already-confirmed check. -/
theorem c1_no_forbidden_transition_amended :
    (∀ (store : Store) (e : MailjetWebhooks.MailjetEvent) (now : Nat)
        (r' : Subscriber),
      r' ∈ MailjetWebhooks.process_mailjet_event store e now →
      r'.status = .confirmed →
      ∃ r, r ∈ store ∧ r.status = SubscriberStatus.confirmed ∧
        r.email = r'.email) ∧
    (SyncScript.syncStep [{ email := "b@x.com", status := .unsubscribed }]
        { email := some "b@x.com", status := some "active" } "0F0F0F" 7
      = [{ email := "b@x.com", status := .confirmed, confirmed_at := some 7,
           promo_code := some "EC10-0F0F0F" }]) ∧
    ((NewsletterRouter.confirm_subscription none (fun _ _ => .resp 404 none) 0
        [{ email := "c@x.com", status := .bounced }]
        (generate_confirmation_token "c@x.com" 0) 5 "123ABC").2.1
      = [{ email := "c@x.com", status := .confirmed, confirmed_at := some 5,
           promo_code := some "EC10-123ABC" }]) := by
  refine ⟨?_, rfl, rfl⟩
  intro store e now r' h hc
  simp only [MailjetWebhooks.process_mailjet_event] at h
  by_cases h0 : pyLower (e.email.getD "") = ""
  · rw [if_pos h0] at h
    exact ⟨r', h, hc, rfl⟩
  · rw [if_neg h0] at h
    cases hfind : SubscriberRepository.get_by_email store (pyLower (e.email.getD "")) with
    | none => rw [hfind] at h; exact ⟨r', h, hc, rfl⟩
    | some sub =>
      rw [hfind] at h
      dsimp only at h
      split_ifs at h
      all_goals
        first
          | exact ⟨r', h, hc, rfl⟩
          | exact SubscriberRepository.mem_update_no_confirm h
              (by intro r hh; simpa using hh) (fun r => rfl) hc

/-- Witness for C1 (amended): an unknown-type webhook event on a store
with one confirmed record — the confirmed record in the result descends
from a confirmed record of the store. -/
theorem c1_no_forbidden_transition_amended_witness :
    ∃ r, r ∈ ([{ email := "a@x.com", status := .confirmed }] : Store) ∧
      r.status = SubscriberStatus.confirmed ∧ r.email = "a@x.com" :=
  c1_no_forbidden_transition_amended.1
    [{ email := "a@x.com", status := .confirmed }]
    { event := some "other", email := some "a@x.com" } 0
    { email := "a@x.com", status := .confirmed }
    (by decide) rfl

/-- C8: a webhook batch made of one event with a missing `email` key and
one valid hard-bounce event for a known subscriber yields a success
response counting both events (no exception), the malformed event is
skipped (it leaves the store untouched), and the bounced subscriber's
record is transitioned to `bounced`. -/
theorem c8_webhook_batch_malformed_and_bounce (store : Store) (now : Nat)
    (e1 : MailjetWebhooks.MailjetEvent) (email : String) (sub : Subscriber)
    (h1 : e1.email = none)
    (hlow : pyLower email = email) (hne : email ≠ "")
    (hsub : SubscriberRepository.get_by_email store email = some sub) :
    (MailjetWebhooks.handle_mailjet_webhook store
        [e1, { event := some "bounce", email := some email, hard_bounce := true }]
        now).1
      = .ok (.jobj [("message", .jstr "Webhook processed"),
                    ("events", .jnum 2)]) ∧
    MailjetWebhooks.process_mailjet_event store e1 now = store ∧
    SubscriberRepository.get_by_email
      (MailjetWebhooks.handle_mailjet_webhook store
        [e1, { event := some "bounce", email := some email, hard_bounce := true }]
        now).2 email
      = some { sub with status := .bounced } := by
  have hskip : MailjetWebhooks.process_mailjet_event store e1 now = store := by
    simp [MailjetWebhooks.process_mailjet_event, h1, pyLower]
  refine ⟨rfl, hskip, ?_⟩
  have h2 : (MailjetWebhooks.handle_mailjet_webhook store
      [e1, { event := some "bounce", email := some email, hard_bounce := true }]
      now).2
    = MailjetWebhooks.process_mailjet_event
        (MailjetWebhooks.process_mailjet_event store e1 now)
        { event := some "bounce", email := some email, hard_bounce := true }
        now := rfl
  rw [h2, hskip]
  have hb : MailjetWebhooks.process_mailjet_event store
      { event := some "bounce", email := some email, hard_bounce := true } now
      = (SubscriberRepository.mark_bounced store email).1 := by
    simp [MailjetWebhooks.process_mailjet_event, hlow, hne, hsub]
  rw [hb]
  exact SubscriberRepository.get_by_email_update hsub rfl

/-- Witness for C8: the batch over a concrete store with one known
pending subscriber. -/
theorem c8_webhook_batch_malformed_and_bounce_witness :
    (MailjetWebhooks.handle_mailjet_webhook
        [{ email := "a@x.com", status := .pending }]
        [{ event := some "bounce" },
         { event := some "bounce", email := some "a@x.com", hard_bounce := true }]
        0).1
      = .ok (.jobj [("message", .jstr "Webhook processed"),
                    ("events", .jnum 2)]) ∧
    MailjetWebhooks.process_mailjet_event
        [{ email := "a@x.com", status := .pending }] { event := some "bounce" } 0
      = [{ email := "a@x.com", status := .pending }] ∧
    SubscriberRepository.get_by_email
      (MailjetWebhooks.handle_mailjet_webhook
        [{ email := "a@x.com", status := .pending }]
        [{ event := some "bounce" },
         { event := some "bounce", email := some "a@x.com", hard_bounce := true }]
        0).2 "a@x.com"
      = some { email := "a@x.com", status := .bounced } :=
  c8_webhook_batch_malformed_and_bounce
    [{ email := "a@x.com", status := .pending }] 0
    { event := some "bounce" } "a@x.com"
    { email := "a@x.com", status := .pending }
    rfl (by decide) (by decide) rfl

/-- C6: confirming is idempotent.  A first confirmation of a `pending`
subscriber redirects with a fresh promo code and stores it; a second call
of the confirm flow with the same still-valid token redirects with
`already=true` and the same promo code, and leaves the store — hence
`promo_code` and `confirmed_at` — unchanged. -/
theorem c6_reconfirmation_idempotent (store : Store) (t : Token) (sub : Subscriber)
    (now₁ now₂ k₁ k₂ : Nat) (hex₁ hex₂ : String) (net₁ net₂ : Net)
    (apiKey₂ : Option String)
    (hsig : t.signedWith = JWT_SECRET) (htyp : t.payload.typ = "confirmation")
    (hexp₁ : now₁ < t.payload.exp) (hexp₂ : now₂ < t.payload.exp)
    (hsub : SubscriberRepository.get_by_email store t.payload.email = some sub)
    (hpend : sub.status = .pending) :
    (NewsletterRouter.confirm_subscription none net₁ k₁ store t now₁ hex₁).1
      = .ok (NewsletterRouter.FRONTEND_URL ++ "/newsletter/confirmed?promo="
             ++ ("EC10-" ++ hex₁)) ∧
    SubscriberRepository.get_by_email
        (NewsletterRouter.confirm_subscription none net₁ k₁ store t now₁ hex₁).2.1
        t.payload.email
      = some { sub with status := .confirmed
                        confirmed_at := some now₁
                        promo_code := some ("EC10-" ++ hex₁) } ∧
    (NewsletterRouter.confirm_subscription apiKey₂ net₂ k₂
        (NewsletterRouter.confirm_subscription none net₁ k₁ store t now₁ hex₁).2.1
        t now₂ hex₂).1
      = .ok (NewsletterRouter.FRONTEND_URL ++ "/newsletter/confirmed?promo="
             ++ ("EC10-" ++ hex₁) ++ "&already=true") ∧
    (NewsletterRouter.confirm_subscription apiKey₂ net₂ k₂
        (NewsletterRouter.confirm_subscription none net₁ k₁ store t now₁ hex₁).2.1
        t now₂ hex₂).2.1
      = (NewsletterRouter.confirm_subscription none net₁ k₁ store t now₁ hex₁).2.1 := by
  have hver₁ : verify_confirmation_token t now₁ = some t.payload.email := by
    simp [verify_confirmation_token, verify_token, jwtDecode, hsig, htyp,
          Nat.not_le.mpr hexp₁]
  have hver₂ : verify_confirmation_token t now₂ = some t.payload.email := by
    simp [verify_confirmation_token, verify_token, jwtDecode, hsig, htyp,
          Nat.not_le.mpr hexp₂]
  have hmod : (SubscriberRepository.confirm store t.payload.email
      ("EC10-" ++ hex₁) now₁).2 = true := by
    apply SubscriberRepository.update_modified hsub
    intro hcontra
    have hstat := congrArg Subscriber.status hcontra
    simp [hpend] at hstat
  have hget : SubscriberRepository.get_by_email
      (SubscriberRepository.confirm store t.payload.email ("EC10-" ++ hex₁) now₁).1
      t.payload.email
      = some { sub with status := .confirmed
                        confirmed_at := some now₁
                        promo_code := some ("EC10-" ++ hex₁) } :=
    SubscriberRepository.get_by_email_update hsub rfl
  have hfirst : NewsletterRouter.confirm_subscription none net₁ k₁ store t now₁ hex₁
      = (.ok (NewsletterRouter.FRONTEND_URL ++ "/newsletter/confirmed?promo="
              ++ ("EC10-" ++ hex₁)),
         (SubscriberRepository.confirm store t.payload.email ("EC10-" ++ hex₁) now₁).1,
         k₁) := by
    simp only [NewsletterRouter.confirm_subscription, hver₁, hsub]
    rw [if_neg (by simp [hpend]), if_neg (by simp [hmod])]
    rfl
  have hsecond : NewsletterRouter.confirm_subscription apiKey₂ net₂ k₂
      (SubscriberRepository.confirm store t.payload.email ("EC10-" ++ hex₁) now₁).1
      t now₂ hex₂
      = (.ok (NewsletterRouter.FRONTEND_URL ++ "/newsletter/confirmed?promo="
              ++ ("EC10-" ++ hex₁) ++ "&already=true"),
         (SubscriberRepository.confirm store t.payload.email ("EC10-" ++ hex₁) now₁).1,
         k₂) := by
    simp only [NewsletterRouter.confirm_subscription, hver₂, hget]
    rfl
  have h21 : (NewsletterRouter.confirm_subscription none net₁ k₁ store t now₁ hex₁).2.1
      = (SubscriberRepository.confirm store t.payload.email ("EC10-" ++ hex₁) now₁).1 := by
    rw [hfirst]
  refine ⟨?_, ?_, ?_, ?_⟩
  · rw [hfirst]
  · rw [h21]; exact hget
  · rw [h21, hsecond]
  · rw [h21, hsecond]

/-- Witness for C6: the two-call scenario on a concrete pending record. -/
theorem c6_reconfirmation_idempotent_witness :
    (NewsletterRouter.confirm_subscription none (fun _ _ => .resp 404 none) 0
        [{ email := "a@x.com", status := .pending }]
        (generate_confirmation_token "a@x.com" 0) 10 "AAAA11").1
      = .ok (NewsletterRouter.FRONTEND_URL ++ "/newsletter/confirmed?promo="
             ++ ("EC10-" ++ "AAAA11")) ∧
    SubscriberRepository.get_by_email
        (NewsletterRouter.confirm_subscription none (fun _ _ => .resp 404 none) 0
          [{ email := "a@x.com", status := .pending }]
          (generate_confirmation_token "a@x.com" 0) 10 "AAAA11").2.1
        (generate_confirmation_token "a@x.com" 0).payload.email
      = some { email := "a@x.com"
               status := .confirmed
               confirmed_at := some 10
               promo_code := some ("EC10-" ++ "AAAA11") } ∧
    (NewsletterRouter.confirm_subscription (some "key") (fun _ _ => .resp 404 none) 7
        (NewsletterRouter.confirm_subscription none (fun _ _ => .resp 404 none) 0
          [{ email := "a@x.com", status := .pending }]
          (generate_confirmation_token "a@x.com" 0) 10 "AAAA11").2.1
        (generate_confirmation_token "a@x.com" 0) 20 "BBBB22").1
      = .ok (NewsletterRouter.FRONTEND_URL ++ "/newsletter/confirmed?promo="
             ++ ("EC10-" ++ "AAAA11") ++ "&already=true") ∧
    (NewsletterRouter.confirm_subscription (some "key") (fun _ _ => .resp 404 none) 7
        (NewsletterRouter.confirm_subscription none (fun _ _ => .resp 404 none) 0
          [{ email := "a@x.com", status := .pending }]
          (generate_confirmation_token "a@x.com" 0) 10 "AAAA11").2.1
        (generate_confirmation_token "a@x.com" 0) 20 "BBBB22").2.1
      = (NewsletterRouter.confirm_subscription none (fun _ _ => .resp 404 none) 0
          [{ email := "a@x.com", status := .pending }]
          (generate_confirmation_token "a@x.com" 0) 10 "AAAA11").2.1 :=
  c6_reconfirmation_idempotent
    [{ email := "a@x.com", status := .pending }]
    (generate_confirmation_token "a@x.com" 0)
    { email := "a@x.com", status := .pending }
    10 20 0 7 "AAAA11" "BBBB22" (fun _ _ => .resp 404 none) (fun _ _ => .resp 404 none)
    (some "key") rfl rfl (by decide) (by decide) rfl rfl

/-- C3 (evaluation at the failing input): dispatch to three confirmed
recipients where the second send fails (the provider returns a campaign
without an id for the 5th HTTP call, which is the second recipient's
campaign creation).  The result is `sent=2, failed=1` as the claim says,
but `_update_stats_on_success` then increments `emails_sent` (and sets
`last_email_sent_at`) for every active subscriber — including `b@x.com`,
whose send failed and whose counter the claim requires unchanged. -/
theorem c3_dispatch_increments_failed_recipient :
    Notifications.notify_new_artwork (some "key")
      (fun k c =>
        if c.endpoint = "/groups" then
          .resp 200 (some (.jobj [("data", .jarr
            [.jobj [("name", .jstr "newsletter_site"), ("id", .jstr "g1")]])]))
        else if c.endpoint = "/campaigns" then
          (if k = 4 then .resp 200 (some (.jobj [("data", .jobj [])]))
           else .resp 200 (some (.jobj [("data", .jobj [("id", .jstr "c1")])])))
        else .resp 200 (some (.jobj [])))
      0
      (fun n => if n = "new-artwork.html" then some "Nouvelle oeuvre disponible"
                else none)
      "u1"
      (some { title := "Soleil" }) "art1"
      [{ email := "a@x.com", status := .confirmed,
         unsubscribe_token := some (generate_unsubscribe_token "a@x.com" 0) },
       { email := "b@x.com", status := .confirmed,
         unsubscribe_token := some (generate_unsubscribe_token "b@x.com" 0) },
       { email := "c@x.com", status := .confirmed,
         unsubscribe_token := some (generate_unsubscribe_token "c@x.com" 0) }]
      99
    = (.ok ({ sent := 2, failed := 1, errors := ["Send failed for b@x.com"] },
        [{ email := "a@x.com", status := .confirmed,
           unsubscribe_token := some (generate_unsubscribe_token "a@x.com" 0),
           emails_sent := 1, last_email_sent_at := some 99 },
         { email := "b@x.com", status := .confirmed,
           unsubscribe_token := some (generate_unsubscribe_token "b@x.com" 0),
           emails_sent := 1, last_email_sent_at := some 99 },
         { email := "c@x.com", status := .confirmed,
           unsubscribe_token := some (generate_unsubscribe_token "c@x.com" 0),
           emails_sent := 1, last_email_sent_at := some 99 }]),
       8) := rfl

/-- C10: with no provider API key configured, every adapter call degrades
to a silent no-op instead of raising: `_request` returns `None` without
any network call (the call counter is unchanged), so `get_subscriber`
returns `None`, `ensure_newsletter_subscriber` returns `None` and
`send_campaign` returns `false`; and the local subscribe, confirm and
unsubscribe flows still complete — a fresh subscribe creates the pending
record, the confirm and unsubscribe endpoints never surface an exception,
and a valid unsubscribe still flips the record. -/
theorem c10_missing_api_key_degrades_to_noop :
    (∀ (net : Net) (k : Nat) (method endpoint : String) (payload : Option Jx),
      MailerLite.pyRequest none net k method endpoint payload = (.ok none, k)) ∧
    (∀ (net : Net) (k : Nat) (email : String),
      MailerLite.get_subscriber none net k email = (.ok none, k)) ∧
    (∀ (net : Net) (k : Nat) (email : String) (fields : Option Jx),
      MailerLite.ensure_newsletter_subscriber none net k email fields
        = (.ok none, k)) ∧
    (∀ (net : Net) (k : Nat) (subject html uuidHex : String)
        (gids : List String),
      MailerLite.send_campaign none net k subject html gids uuidHex
        = (.ok false, k)) ∧
    (∀ (net : Net) (k now : Nat) (ip : Option String) (ua : String),
      NewsletterRouter.subscribe_to_newsletter none net k [] "a@x.com" true
          ip ua now
        = (.ok (.jobj
            [("message", .jstr "Email de vérification envoyé."),
             ("email", .jstr "a@x.com"),
             ("status", .jstr "pending"),
             ("benefit", .jstr "Vous recevrez 10% de réduction sur votre premier achat une fois confirmé !")]),
           [{ email := "a@x.com", status := .pending, consent_accepted := true,
              consent_ip := ip, consent_user_agent := some ua,
              confirmation_token := some (generate_confirmation_token "a@x.com" now),
              unsubscribe_token := some (generate_unsubscribe_token "a@x.com" now),
              created_at := some now }], k)) ∧
    (∀ (net : Net) (k : Nat) (store : Store) (t : Token) (now : Nat)
        (hex name msg : String),
      (NewsletterRouter.confirm_subscription none net k store t now hex).1
        ≠ .exn name msg) ∧
    (∀ (net : Net) (k : Nat) (store : Store) (t : Token)
        (reason : Option String) (now : Nat) (name msg : String),
      (NewsletterRouter.unsubscribe_from_newsletter none net k store t
          reason now).1
        ≠ .exn name msg) ∧
    (∀ (net : Net) (k : Nat),
      NewsletterRouter.unsubscribe_from_newsletter none net k
          [{ email := "a@x.com", status := .confirmed }]
          (generate_unsubscribe_token "a@x.com" 0) (some "ennui") 100
        = (.ok (.jobj
            [("message", .jstr "Vous avez été désinscrit de la newsletter avec succès."),
             ("email", .jstr "a@x.com")]),
           [{ email := "a@x.com", status := .unsubscribed,
              unsubscribed_at := some 100,
              unsubscribe_reason := some "ennui" }], k)) := by
  refine ⟨fun _ _ _ _ _ => rfl, fun _ _ _ => rfl, fun _ _ _ _ => rfl,
          ?_, fun _ _ _ _ _ => rfl, ?_, ?_, fun _ _ => rfl⟩
  · intro net k subject html uuidHex gids
    exact send_campaign_none_key net k subject html uuidHex gids
  · intro net k store t now hex name msg
    cases hv : verify_confirmation_token t now with
    | none => simp [NewsletterRouter.confirm_subscription, hv]
    | some email =>
      cases hg : SubscriberRepository.get_by_email store email with
      | none => simp [NewsletterRouter.confirm_subscription, hv, hg]
      | some sub =>
        by_cases hs : sub.status = SubscriberStatus.confirmed
        · simp [NewsletterRouter.confirm_subscription, hv, hg, hs]
        · by_cases hm :
            (SubscriberRepository.confirm store email ("EC10-" ++ hex) now).2
          · simp [NewsletterRouter.confirm_subscription, hv, hg, hs, hm,
              show MailerLite.mark_subscriber_confirmed none net k email
                = (.ok none, k) from rfl]
          · simp [NewsletterRouter.confirm_subscription, hv, hg, hs, hm]
  · intro net k store t reason now name msg
    cases hv : verify_unsubscribe_token t now with
    | none => simp [NewsletterRouter.unsubscribe_from_newsletter, hv]
    | some email =>
      cases hg : SubscriberRepository.get_by_email store email with
      | none => simp [NewsletterRouter.unsubscribe_from_newsletter, hv, hg]
      | some sub =>
        by_cases hm :
          (SubscriberRepository.unsubscribe store email reason now).2
        · simp [NewsletterRouter.unsubscribe_from_newsletter, hv, hg, hm,
            show MailerLite.mark_subscriber_unsubscribed none net k email
              = (.ok false, k) from rfl]
        · simp [NewsletterRouter.unsubscribe_from_newsletter, hv, hg, hm]

/-- Witness for C10: the degradations at concrete inputs. -/
theorem c10_missing_api_key_degrades_to_noop_witness :
    MailerLite.pyRequest none (fun _ _ => .resp 200 none) 0 "GET" "/groups" none
      = (.ok none, 0) ∧
    (NewsletterRouter.confirm_subscription none (fun _ _ => .resp 200 none) 0 []
        (generate_confirmation_token "a@x.com" 0) 5 "AAAA11").1
      ≠ .exn "MailerLiteError" "boom" :=
  ⟨c10_missing_api_key_degrades_to_noop.1 (fun _ _ => .resp 200 none) 0
     "GET" "/groups" none,
   c10_missing_api_key_degrades_to_noop.2.2.2.2.2.1 (fun _ _ => .resp 200 none)
     0 [] (generate_confirmation_token "a@x.com" 0) 5 "AAAA11"
     "MailerLiteError" "boom"⟩

end Newsletter
